import Mathlib

/-!
Verification development for the ai-service of the aycom repository
(src/ai-service/app.py).  The Python source is shallowly embedded:

* the keyword classifier `predict_by_keywords` becomes a pure function on
  strings, with Python floats (`0.8`, `0.1`, `0.02`) modelled as the exact
  rationals they denote — for the match-count ratios occurring here
  (denominators at most 25) IEEE-double evaluation is correctly rounded and
  order-isomorphic to the exact values, so comparisons and ties agree;
* the regular-expression whole-word search (the pattern built from a word
  boundary, the escaped keyword, then a word boundary) becomes an explicit
  scan over the character list, where a word character is alphanumeric or
  an underscore; every keyword of the dictionary begins and ends with a
  letter, for which this scan coincides with the regex semantics;
* the Flask handler `predict_category` becomes a state-passing function over
  an explicit environment (filesystem probes, artifact loaders, and the
  randomly initialised fresh model/tokenizer) with exceptions as `Except`;
* Python dict iteration order is insertion order, so the keyword dictionary
  becomes an association list in the source's literal order, and
  `max(d, key=d.get)` becomes a left fold that replaces the current best
  only on a strictly greater score (Python's `max` keeps the earliest
  maximum).
-/

namespace AyCom

/-! ## Word-boundary keyword matching (app.py, predict_by_keywords lines 198-201) -/

/-- Python regex word characters (ASCII fragment): letters, digits, underscore. -/
def isWordChar (c : Char) : Bool :=
  c.isAlphanum || c == '_'

/-- The keyword characters match at the head of the text and the position just
after the keyword is a word boundary (end of text or a non-word character). -/
def matchHeadB : List Char → List Char → Bool
  | [], [] => true
  | [], c :: _ => !isWordChar c
  | _ :: _, [] => false
  | k :: ks, c :: cs => k == c && matchHeadB ks cs

/-- Scan every position of the text for a word-boundary-delimited occurrence of
the keyword; the flag records whether the previous character is a word
character (at the start of the text there is none). -/
def scanWord (kw : List Char) : List Char → Bool → Bool
  | [], prevWord => !prevWord && matchHeadB kw []
  | c :: cs, prevWord =>
    (!prevWord && matchHeadB kw (c :: cs)) || scanWord kw cs (isWordChar c)

/-- Embedding of `re.search(r'\b' + re.escape(keyword) + r'\b', content)`:
every dictionary keyword consists of letters and spaces so escaping is the
identity, and it begins and ends with a letter so the boundary conditions are
the ones checked by `matchHeadB`/`scanWord`. -/
def wholeWordMatch (kw : String) (text : List Char) : Bool :=
  scanWord kw.toList text false

/-- `content.lower()` applied before matching (ASCII fragment). -/
def plower (s : String) : List Char :=
  s.toList.map Char.toLower

/-- Number of keywords of one category that occur word-delimited in the text
(each keyword counts once, as in the source's per-keyword `match_count`). -/
def matchCount (kws : List String) (text : List Char) : Nat :=
  kws.countP (fun kw => wholeWordMatch kw text)

/-! ## The keyword dictionary (app.py lines 58-70), in the source's order -/

def kw_technology : List String :=
  ["technology", "tech", "computer", "software", "hardware", "app", "code",
   "program", "internet", "smartphone", "device", "iphone", "android", "web",
   "digital", "online", "system", "electronic", "gadget", "mobile", "laptop",
   "tablet", "ai", "artificial intelligence", "machine learning"]

def kw_health : List String :=
  ["health", "medical", "doctor", "hospital", "disease", "treatment",
   "medicine", "patient", "cure", "symptom", "healthcare", "fitness",
   "workout", "exercise", "diet", "nutrition", "wellness", "therapy", "drug",
   "vaccine", "virus", "covid", "pandemic", "mental health"]

def kw_education : List String :=
  ["education", "school", "student", "teacher", "learn", "course", "study",
   "college", "university", "degree", "academic", "research", "knowledge",
   "skill", "class", "lecture", "lesson", "exam", "test", "assignment",
   "homework", "grade", "campus"]

def kw_entertainment : List String :=
  ["entertainment", "movie", "film", "music", "song", "concert", "artist",
   "actor", "actress", "celebrity", "show", "tv", "television", "series",
   "episode", "play", "theater", "performance", "comedy", "drama", "game",
   "gaming", "video game", "streaming"]

def kw_science : List String :=
  ["science", "scientific", "scientist", "research", "discovery",
   "experiment", "physics", "chemistry", "biology", "astronomy", "space",
   "planet", "star", "universe", "laboratory", "theory", "hypothesis",
   "evidence", "data", "climate", "environment", "nature", "animal",
   "species"]

def kw_sports : List String :=
  ["sports", "game", "team", "player", "coach", "match", "tournament",
   "championship", "league", "score", "win", "loss", "competition", "athlete",
   "olympic", "football", "soccer", "basketball", "baseball", "tennis",
   "golf", "swimming", "boxing", "cricket"]

def kw_politics : List String :=
  ["politics", "political", "government", "president", "minister", "election",
   "vote", "campaign", "law", "policy", "congress", "senate",
   "representative", "democracy", "republican", "democrat", "party", "bill",
   "legislation", "regulation", "court", "justice", "decision"]

def kw_business : List String :=
  ["business", "company", "corporation", "firm", "industry", "market",
   "product", "service", "customer", "client", "stock", "share", "investor",
   "profit", "loss", "revenue", "sales", "investment", "finance", "money",
   "bank", "credit", "loan", "debt", "economy"]

def kw_lifestyle : List String :=
  ["lifestyle", "life", "living", "home", "house", "apartment", "furniture",
   "decoration", "design", "style", "fashion", "clothes", "dress", "outfit",
   "trend", "family", "relationship", "marriage", "wedding", "divorce",
   "parent", "child", "baby", "pet"]

def kw_travel : List String :=
  ["travel", "trip", "journey", "vacation", "holiday", "tour", "tourist",
   "tourism", "destination", "hotel", "resort", "flight", "airplane",
   "airport", "country", "city", "beach", "mountain", "adventure",
   "exploration", "sightseeing", "landmark", "passport", "visa"]

def kw_other : List String :=
  ["other", "miscellaneous", "various", "different", "random", "general"]

/-- The `category_keywords` dict of the source, as an association list in the
source's (= Python insertion) order. -/
def category_keywords : List (String × List String) :=
  [("technology", kw_technology), ("health", kw_health),
   ("education", kw_education), ("entertainment", kw_entertainment),
   ("science", kw_science), ("sports", kw_sports),
   ("politics", kw_politics), ("business", kw_business),
   ("lifestyle", kw_lifestyle), ("travel", kw_travel), ("other", kw_other)]

/-! ## Lexical scores (app.py lines 195-217) -/

/-- Score of one category: `match_count / len(keywords) * 0.8 + 0.1` when at
least one keyword matched, otherwise the floor `0.02`. -/
def scoreFor (kws : List String) (text : List Char) : ℚ :=
  let m := matchCount kws text
  if 0 < m then (m : ℚ) / (kws.length : ℚ) * ((8 : ℚ) / 10) + (1 : ℚ) / 10
  else (2 : ℚ) / 100

/-- The `category_scores` dict built by the source's loop, in dict order. -/
def category_scores (text : List Char) : List (String × ℚ) :=
  category_keywords.map (fun ck => (ck.1, scoreFor ck.2 text))

/-- One step of Python's `max(category_scores, key=category_scores.get)`:
the running best is replaced only by a strictly greater score, so the earliest
maximal entry survives. -/
def pickMax (best p : String × ℚ) : String × ℚ :=
  if best.2 < p.2 then p else best

/-- Python's `max` over a nonempty association list with the value as key. -/
def pymax (h : String × ℚ) (t : List (String × ℚ)) : String × ℚ :=
  t.foldl pickMax h

/-- Embedding of `predict_by_keywords` (app.py lines 189-217), including the
source's guard for an empty score dict. -/
def predict_by_keywords (content : String) : String × ℚ :=
  match category_scores (plower content) with
  | [] => ("other", (1 : ℚ) / 10)
  | h :: t => pymax h t

/-! ## The rest of the service state (app.py lines 30-55, 114-187, 246-293)

The opaque TensorFlow objects are modelled by their one relevant capability:
a model maps a padded integer sequence to a list of per-category scores, a
tokenizer maps text to an integer sequence.  Everything the process obtains
from outside — filesystem probes, the two artifact loaders (with exceptions
as `Except`), and the randomly initialised fresh model and fresh tokenizer —
is collected in an `Env` record, so one value of `Env` fixes one run of the
nondeterministic environment. -/

/-- The trained (or fresh) classifier: padded sequence to category scores. -/
def TrainedModel : Type := List Nat → List ℚ

/-- A tokenizer: `texts_to_sequences` on a single text. -/
structure Tokenizer where
  texts_to_sequences : String → List Nat

/-- External environment of one run. -/
structure Env where
  pathExists : String → Bool
  load_model : String → Bool → Except String TrainedModel
  pickle_load : String → Except String Tokenizer
  fresh_model : TrainedModel
  fresh_tokenizer : Tokenizer

/-- The process-wide globals `thread_model`, `tokenizer`, `using_fresh_model`
(app.py lines 30-33). -/
structure ClassifierState where
  thread_model : Option TrainedModel
  tokenizer : Option Tokenizer
  using_fresh_model : Bool

/-- Initial state of the process: nothing loaded, not in fresh mode. -/
def initialState : ClassifierState :=
  { thread_model := none, tokenizer := none, using_fresh_model := false }

def max_sequence_length : Nat := 100

def possible_model_paths : List String :=
  ["/app/models/thread_category_model.h5", "/app/thread_category_model.h5",
   "./thread_category_model.h5", "./models/thread_category_model.h5"]

def possible_tokenizer_paths : List String :=
  ["/app/models/tokenizer.pickle", "/app/tokenizer.pickle",
   "./tokenizer.pickle", "./models/tokenizer.pickle"]

/-- `create_fresh_model` (app.py lines 72-90): the architecture is opaque and
the weights are random, so the resulting classifier is whatever the
environment's random initialisation produced. -/
def create_fresh_model (env : Env) : TrainedModel :=
  env.fresh_model

/-- `create_fresh_tokenizer` (app.py lines 92-112). -/
def create_fresh_tokenizer (env : Env) : Tokenizer :=
  env.fresh_tokenizer

/-- The inner double attempt of app.py lines 141-144: `load_model(path,
compile=False)`, and on an exception the retry with `custom_objects={}`
(second argument `true`); if the retry also raises, the surrounding
`except ... continue` of the path loop swallows it. -/
def try_load_model (env : Env) (p : String) : Option TrainedModel :=
  match env.load_model p false with
  | .ok m => some m
  | .error _ =>
    match env.load_model p true with
    | .ok m => some m
    | .error _ => none

/-- The model path loop of `load_models` (app.py lines 135-151): probe the
candidates in order; a missing path or a failed load moves on to the next
candidate; the first path that exists and loads wins. -/
def find_model (env : Env) : List String → Option (String × TrainedModel)
  | [] => none
  | p :: rest =>
    if env.pathExists p then
      match try_load_model env p with
      | some m => some (p, m)
      | none => find_model env rest
    else find_model env rest

/-- The tokenizer path loop of `load_models` (app.py lines 163-175); the
pickle load is a single attempt, its exception moves on to the next path. -/
def find_tokenizer (env : Env) : List String → Option (String × Tokenizer)
  | [] => none
  | p :: rest =>
    if env.pathExists p then
      match env.pickle_load p with
      | .ok t => some (p, t)
      | .error _ => find_tokenizer env rest
    else find_tokenizer env rest

/-- Embedding of `load_models` (app.py lines 114-187).  Both globals are
always (re)assigned — to a located artifact or to a fresh substitute — and
`using_fresh_model` is only ever raised to `true`, never cleared, exactly as
in the source.  Every exception of the loaders is caught inside the loops, so
the function reaches its `return True`; the returned flag is that value. -/
def load_models (env : Env) (st : ClassifierState) : ClassifierState × Bool :=
  let mres := find_model env possible_model_paths
  let model := match mres with
    | some pm => pm.2
    | none => create_fresh_model env
  let tres := find_tokenizer env possible_tokenizer_paths
  let tok := match tres with
    | some pt => pt.2
    | none => create_fresh_tokenizer env
  ({ thread_model := some model, tokenizer := some tok,
     using_fresh_model := st.using_fresh_model || mres.isNone || tres.isNone },
   true)

/-! ## The request handler `predict_category` (app.py lines 246-293) -/

/-- Outcome of `request.json`: a body that is not valid JSON makes the
property raise inside the handler's `try` block (`malformed` carries the
exception message); otherwise the parsed body is a JSON object (an
association list, `content` values modelled as strings) or `null`. -/
inductive ReqBody where
  | malformed (msg : String)
  | parsed (data : Option (List (String × String)))

/-- An HTTP response of the endpoint: `jsonify(result)` or
`jsonify({"error": msg}), status`. -/
inductive Response where
  | ok (result : String × ℚ)
  | err (status : Nat) (msg : String)
deriving DecidableEq

/-- Python truthiness of the parsed body: `None` and the empty object are
falsy. -/
def jsonFalsy : Option (List (String × String)) → Bool
  | none => true
  | some fields => fields.isEmpty

/-- Membership test `'content' in data` on a JSON object. -/
def hasContentKey (fields : List (String × String)) : Bool :=
  fields.any (fun kv => kv.1 == "content")

/-- Whether the body carries a `content` field at all. -/
def bodyHasContent : Option (List (String × String)) → Bool
  | none => false
  | some fields => hasContentKey fields

/-- `data['content']` (defined value only used after the membership test). -/
def getContent (fields : List (String × String)) : String :=
  match fields.find? (fun kv => kv.1 == "content") with
  | some kv => kv.2
  | none => ""

/-- The conditional load of app.py lines 259-262: the models are loaded only
when one of the globals is still `None`. -/
def maybe_load (env : Env) (st : ClassifierState) : ClassifierState × Bool :=
  if st.thread_model.isNone || st.tokenizer.isNone then load_models env st
  else (st, true)

/-- `pad_sequences(seq, maxlen=100, padding='post')` on one sequence: end
padding with zeros, truncation (Keras default) from the front. -/
def pad_sequences (seq : List Nat) : List Nat :=
  if max_sequence_length ≤ seq.length then seq.drop (seq.length - max_sequence_length)
  else seq ++ List.replicate (max_sequence_length - seq.length) 0

/-- The `label_mapping` dict (app.py lines 51-55) in index order 0..10. -/
def label_mapping : List String :=
  ["technology", "health", "education", "entertainment", "science", "sports",
   "politics", "business", "lifestyle", "travel", "other"]

/-- The trained-model branch of the handler (app.py lines 271-289): tokenize,
pad, run the model, rebuild the score dict over `label_mapping`, and take the
argmax with Python `max` semantics.  A prediction vector longer than the
label map would raise a `KeyError`, an empty one would make `max` raise; both
exceptions surface as the handler's 500. -/
def trained_predict (m : TrainedModel) (tok : Tokenizer) (content : String) :
    Response :=
  let padded := pad_sequences (tok.texts_to_sequences content)
  let prediction := m padded
  if label_mapping.length < prediction.length then .err 500 "KeyError"
  else
    match label_mapping.zip prediction with
    | [] => .err 500 "max() arg is an empty sequence"
    | h :: t => .ok (pymax h t)

/-- Embedding of the handler `predict_category` (app.py lines 246-293),
returning the new global state together with the response. -/
def predict_category (env : Env) (st : ClassifierState) (req : ReqBody) :
    ClassifierState × Response :=
  match req with
  | .malformed msg => (st, .err 500 msg)
  | .parsed data =>
    if jsonFalsy data || !bodyHasContent data then
      (st, .err 400 "Missing content field")
    else
      let content := getContent (data.getD [])
      let ls := maybe_load env st
      if !ls.2 then (ls.1, .err 500 "Failed to load prediction models")
      else if ls.1.using_fresh_model then
        (ls.1, .ok (predict_by_keywords content))
      else
        match ls.1.thread_model, ls.1.tokenizer with
        | some m, some tok => (ls.1, trained_predict m tok content)
        | _, _ => (ls.1, .err 500 "NoneType has no attribute")

/-! ## Helper lemmas about Python `max` over an association list -/

lemma foldl_pickMax_mem (l : List (String × ℚ)) (b : String × ℚ) :
    l.foldl pickMax b ∈ b :: l := by
  induction l generalizing b with
  | nil => simp
  | cons p rest ih =>
    simp only [List.foldl_cons]
    rcases List.mem_cons.mp (ih (pickMax b p)) with h1 | h2
    · rw [h1]
      unfold pickMax
      split
      · simp
      · simp
    · exact List.mem_cons.mpr (Or.inr (List.mem_cons.mpr (Or.inr h2)))

lemma foldl_pickMax_id (l : List (String × ℚ)) (b : String × ℚ)
    (hall : ∀ p ∈ l, p.2 ≤ b.2) : l.foldl pickMax b = b := by
  induction l with
  | nil => rfl
  | cons p rest ih =>
    have hb : ¬ b.2 < p.2 := not_lt.mpr (hall p (by simp))
    simp only [List.foldl_cons, pickMax, if_neg hb]
    exact ih (fun q hq => hall q (by simp [hq]))

lemma foldl_pickMax_append (post : List (String × ℚ)) (x : String × ℚ)
    (hpost : ∀ p ∈ post, p.2 ≤ x.2) :
    ∀ (pre : List (String × ℚ)) (b : String × ℚ), b.2 < x.2 →
      (∀ p ∈ pre, p.2 < x.2) → (pre ++ x :: post).foldl pickMax b = x := by
  intro pre
  induction pre with
  | nil =>
    intro b hb _
    simp only [List.nil_append, List.foldl_cons, pickMax, if_pos hb]
    exact foldl_pickMax_id post x hpost
  | cons a rest ih =>
    intro b hb hpre
    simp only [List.cons_append, List.foldl_cons]
    have hax : (pickMax b a).2 < x.2 := by
      unfold pickMax
      split
      · exact hpre a (by simp)
      · exact hb
    exact ih (pickMax b a) hax (fun q hq => hpre q (by simp [hq]))

/-- Python's `max` with a value key returns the earliest entry attaining the
maximal value: everything strictly before it is strictly smaller and
everything after it is at most its value. -/
lemma pymax_first_max (pre post : List (String × ℚ)) (x h : String × ℚ)
    (t : List (String × ℚ)) (hsplit : h :: t = pre ++ x :: post)
    (hpre : ∀ p ∈ pre, p.2 < x.2) (hpost : ∀ p ∈ post, p.2 ≤ x.2) :
    pymax h t = x := by
  cases pre with
  | nil =>
    rw [List.nil_append] at hsplit
    injection hsplit with hh ht
    rw [hh, ht]
    exact foldl_pickMax_id post x hpost
  | cons a rest =>
    rw [List.cons_append] at hsplit
    injection hsplit with hh ht
    rw [hh, ht]
    exact foldl_pickMax_append post x hpost rest a (hpre a (by simp))
      (fun q hq => hpre q (by simp [hq]))

/-! ## Helper lemmas about the lexical scores -/

lemma matchCount_le_length (kws : List String) (text : List Char) :
    matchCount kws text ≤ kws.length :=
  List.countP_le_length _

lemma scoreFor_of_pos (kws : List String) (text : List Char)
    (h : 0 < matchCount kws text) :
    scoreFor kws text
      = (matchCount kws text : ℚ) / (kws.length : ℚ) * ((8 : ℚ) / 10)
          + (1 : ℚ) / 10 := by
  unfold scoreFor
  rw [if_pos h]

lemma scoreFor_of_zero (kws : List String) (text : List Char)
    (h : matchCount kws text = 0) : scoreFor kws text = (2 : ℚ) / 100 := by
  unfold scoreFor
  rw [if_neg (by omega)]

lemma scoreFor_pos_bounds (kws : List String) (text : List Char)
    (h : 0 < matchCount kws text) :
    (1 : ℚ) / 10 < scoreFor kws text ∧ scoreFor kws text ≤ (9 : ℚ) / 10 := by
  have hmn : matchCount kws text ≤ kws.length := matchCount_le_length kws text
  have hm : (0 : ℚ) < (matchCount kws text : ℚ) := by exact_mod_cast h
  have hn : (0 : ℚ) < (kws.length : ℚ) := by exact_mod_cast lt_of_lt_of_le h hmn
  have hr1 : (matchCount kws text : ℚ) / (kws.length : ℚ) ≤ 1 := by
    rw [div_le_one hn]
    exact_mod_cast hmn
  have hr0 : 0 < (matchCount kws text : ℚ) / (kws.length : ℚ) := div_pos hm hn
  rw [scoreFor_of_pos kws text h]
  constructor
  · nlinarith
  · nlinarith

lemma scoreFor_ge_floor (kws : List String) (text : List Char) :
    (2 : ℚ) / 100 ≤ scoreFor kws text := by
  rcases Nat.eq_zero_or_pos (matchCount kws text) with h | h
  · rw [scoreFor_of_zero kws text h]
  · have := (scoreFor_pos_bounds kws text h).1
    nlinarith

/-- The score dict written out entry by entry. -/
lemma category_scores_eq (text : List Char) :
    category_scores text =
      [("technology", scoreFor kw_technology text),
       ("health", scoreFor kw_health text),
       ("education", scoreFor kw_education text),
       ("entertainment", scoreFor kw_entertainment text),
       ("science", scoreFor kw_science text),
       ("sports", scoreFor kw_sports text),
       ("politics", scoreFor kw_politics text),
       ("business", scoreFor kw_business text),
       ("lifestyle", scoreFor kw_lifestyle text),
       ("travel", scoreFor kw_travel text),
       ("other", scoreFor kw_other text)] := rfl

/-- When no keyword of any category matches, every entry of the score dict is
the floor `0.02`. -/
lemma category_scores_floor (text : List Char)
    (h : (category_keywords.all (fun ck => matchCount ck.2 text == 0)) = true) :
    category_scores text =
      [("technology", (2 : ℚ) / 100), ("health", (2 : ℚ) / 100),
       ("education", (2 : ℚ) / 100), ("entertainment", (2 : ℚ) / 100),
       ("science", (2 : ℚ) / 100), ("sports", (2 : ℚ) / 100),
       ("politics", (2 : ℚ) / 100), ("business", (2 : ℚ) / 100),
       ("lifestyle", (2 : ℚ) / 100), ("travel", (2 : ℚ) / 100),
       ("other", (2 : ℚ) / 100)] := by
  have h' : ∀ ck ∈ category_keywords, matchCount ck.2 text = 0 := by
    intro ck hck
    simpa using List.all_eq_true.mp h ck hck
  rw [category_scores_eq,
    scoreFor_of_zero _ _ (h' ("technology", kw_technology) (by simp [category_keywords])),
    scoreFor_of_zero _ _ (h' ("health", kw_health) (by simp [category_keywords])),
    scoreFor_of_zero _ _ (h' ("education", kw_education) (by simp [category_keywords])),
    scoreFor_of_zero _ _ (h' ("entertainment", kw_entertainment) (by simp [category_keywords])),
    scoreFor_of_zero _ _ (h' ("science", kw_science) (by simp [category_keywords])),
    scoreFor_of_zero _ _ (h' ("sports", kw_sports) (by simp [category_keywords])),
    scoreFor_of_zero _ _ (h' ("politics", kw_politics) (by simp [category_keywords])),
    scoreFor_of_zero _ _ (h' ("business", kw_business) (by simp [category_keywords])),
    scoreFor_of_zero _ _ (h' ("lifestyle", kw_lifestyle) (by simp [category_keywords])),
    scoreFor_of_zero _ _ (h' ("travel", kw_travel) (by simp [category_keywords])),
    scoreFor_of_zero _ _ (h' ("other", kw_other) (by simp [category_keywords]))]

/-! ## Claim C4: the affine score formula and its range -/

/-- C4.  For every input text and every category of the dictionary: if the
category's whole-word match count `m` over its `n` keywords is positive, its
entry in the score dict equals `(m / n) * 0.8 + 0.1` and lies in the interval
`(0.1, 0.9]`; if `m = 0`, its entry is exactly `0.02`. -/
theorem lexical_score_formula (content : String) (c : String)
    (kws : List String) (hmem : (c, kws) ∈ category_keywords) :
    ((c, scoreFor kws (plower content)) ∈ category_scores (plower content))
    ∧ (0 < matchCount kws (plower content) →
        scoreFor kws (plower content)
          = (matchCount kws (plower content) : ℚ) / (kws.length : ℚ)
              * ((8 : ℚ) / 10) + (1 : ℚ) / 10
        ∧ (1 : ℚ) / 10 < scoreFor kws (plower content)
        ∧ scoreFor kws (plower content) ≤ (9 : ℚ) / 10)
    ∧ (matchCount kws (plower content) = 0 →
        scoreFor kws (plower content) = (2 : ℚ) / 100) := by
  refine ⟨?_, ?_, ?_⟩
  · exact List.mem_map_of_mem _ hmem
  · intro h
    exact ⟨scoreFor_of_pos kws (plower content) h,
      (scoreFor_pos_bounds kws (plower content) h).1,
      (scoreFor_pos_bounds kws (plower content) h).2⟩
  · intro h
    exact scoreFor_of_zero kws (plower content) h

theorem lexical_score_formula_witness :
    (("other", scoreFor kw_other (plower "a random remark"))
        ∈ category_scores (plower "a random remark"))
    ∧ (0 < matchCount kw_other (plower "a random remark") →
        scoreFor kw_other (plower "a random remark")
          = (matchCount kw_other (plower "a random remark") : ℚ)
              / (kw_other.length : ℚ) * ((8 : ℚ) / 10) + (1 : ℚ) / 10
        ∧ (1 : ℚ) / 10 < scoreFor kw_other (plower "a random remark")
        ∧ scoreFor kw_other (plower "a random remark") ≤ (9 : ℚ) / 10)
    ∧ (matchCount kw_other (plower "a random remark") = 0 →
        scoreFor kw_other (plower "a random remark") = (2 : ℚ) / 100) :=
  lexical_score_formula "a random remark" "other" kw_other (by decide)

/-! ## Claim C9: the score map is always full, the empty-map guard is dead -/

/-- C9.  For every input text the score dict has exactly one entry per
category — 11 entries, in the dictionary's enumeration order — and every
entry is at least the floor `0.02`; in particular the dict is never empty,
so the guard returning `{other, 0.1}` for an empty dict is unreachable. -/
theorem score_map_always_full (content : String) :
    (category_scores (plower content)).length = 11
    ∧ (category_scores (plower content)).map Prod.fst
        = category_keywords.map Prod.fst
    ∧ ((category_scores (plower content)).all
        (fun p => decide ((2 : ℚ) / 100 ≤ p.2))) = true
    ∧ category_scores (plower content) ≠ [] := by
  refine ⟨?_, ?_, ?_, ?_⟩
  · rw [category_scores_eq]
    rfl
  · rw [category_scores_eq]
    simp [category_keywords]
  · refine List.all_eq_true.mpr ?_
    intro p hp
    rw [decide_eq_true_eq]
    obtain ⟨ck, _, rfl⟩ := List.mem_map.mp hp
    exact scoreFor_ge_floor ck.2 (plower content)
  · rw [category_scores_eq]
    simp

/-! ## Claim C5: ties resolve to the first category in enumeration order -/

/-- C5.  The score dict lists the categories in the fixed enumeration order
(technology, health, ..., other).  Whenever the dict splits as
`pre ++ (c, q) :: post` with every earlier entry strictly below `q` and every
later entry at most `q` — in particular whenever several categories tie for
the maximum and `(c, q)` is the first of them — `predict_by_keywords` returns
`(c, q)`, the first entry attaining the maximal score. -/
theorem lexical_tie_break_first (content : String)
    (pre post : List (String × ℚ)) (c : String) (q : ℚ)
    (hsplit : category_scores (plower content) = pre ++ (c, q) :: post)
    (hpre : ∀ p ∈ pre, p.2 < q) (hpost : ∀ p ∈ post, p.2 ≤ q) :
    predict_by_keywords content = (c, q) := by
  have hne : category_scores (plower content) ≠ [] := by
    rw [category_scores_eq]
    simp
  unfold predict_by_keywords
  cases hcs : category_scores (plower content) with
  | nil => exact absurd hcs hne
  | cons h t =>
    exact pymax_first_max pre post (c, q) h t (hcs.symm.trans hsplit) hpre hpost

theorem lexical_tie_break_first_witness :
    predict_by_keywords "zzz" = ("technology", (2 : ℚ) / 100) :=
  lexical_tie_break_first "zzz" []
    [("health", (2 : ℚ) / 100), ("education", (2 : ℚ) / 100),
     ("entertainment", (2 : ℚ) / 100), ("science", (2 : ℚ) / 100),
     ("sports", (2 : ℚ) / 100), ("politics", (2 : ℚ) / 100),
     ("business", (2 : ℚ) / 100), ("lifestyle", (2 : ℚ) / 100),
     ("travel", (2 : ℚ) / 100), ("other", (2 : ℚ) / 100)]
    "technology" ((2 : ℚ) / 100)
    (category_scores_floor (plower "zzz") (by decide))
    (by simp) (by simp)

/-! ## Claim C1: the no-match result is the first floor category, not other -/

/-- On an all-floor text the fold keeps the very first dict entry, which is
technology. -/
lemma predict_floor (content : String)
    (hfloor : (category_keywords.all
      (fun ck => matchCount ck.2 (plower content) == 0)) = true) :
    predict_by_keywords content = ("technology", (2 : ℚ) / 100) := by
  have hsc := category_scores_floor (plower content) hfloor
  unfold predict_by_keywords
  cases hcs : category_scores (plower content) with
  | nil =>
    rw [hcs] at hsc
    exact absurd hsc (by simp)
  | cons h t =>
    exact pymax_first_max []
      [("health", (2 : ℚ) / 100), ("education", (2 : ℚ) / 100),
       ("entertainment", (2 : ℚ) / 100), ("science", (2 : ℚ) / 100),
       ("sports", (2 : ℚ) / 100), ("politics", (2 : ℚ) / 100),
       ("business", (2 : ℚ) / 100), ("lifestyle", (2 : ℚ) / 100),
       ("travel", (2 : ℚ) / 100), ("other", (2 : ℚ) / 100)]
      ("technology", (2 : ℚ) / 100) h t (hcs.symm.trans hsc)
      (by simp) (by simp)

/-- C1, counterexample.  The empty text matches no keyword of any category
(third conjunct), yet `predict_by_keywords` returns
`{technology, 0.02}` (first conjunct) and not `{other, 0.1}` (second
conjunct), refuting the claimed no-match result. -/
theorem no_match_floor_cex :
    predict_by_keywords "" = ("technology", (2 : ℚ) / 100)
    ∧ predict_by_keywords "" ≠ ("other", (1 : ℚ) / 10)
    ∧ (category_keywords.all
        (fun ck => matchCount ck.2 (plower "") == 0)) = true := by
  have h1 : predict_by_keywords "" = ("technology", (2 : ℚ) / 100) :=
    predict_floor "" (by decide)
  refine ⟨h1, ?_, by decide⟩
  rw [h1]
  intro hc
  exact absurd (congrArg Prod.fst hc) (by simp)

/-- C1, amended.  For every input in which no keyword of any category occurs
as a whole-word match (every category at the floor), `predict_by_keywords`
returns `{technology, 0.02}` — the first dict entry under the
first-maximum rule — because the floor entries make the score dict nonempty,
so the `{other, 0.1}` guard for an empty dict never fires. -/
theorem no_match_returns_first_floor (content : String)
    (hfloor : (category_keywords.all
      (fun ck => matchCount ck.2 (plower content) == 0)) = true) :
    predict_by_keywords content = ("technology", (2 : ℚ) / 100) :=
  predict_floor content hfloor

theorem no_match_returns_first_floor_witness :
    predict_by_keywords "qwerty" = ("technology", (2 : ℚ) / 100) :=
  no_match_returns_first_floor "qwerty" (by decide)

/-! ## Claim C8: the stock-market sentence is classified as business -/

/-- C8.  On the sentence `"The stock market had a significant drop today
affecting many companies"` the lexical classifier returns `business` (with
score `2/25 * 0.8 + 0.1 = 41/250 = 0.164`, from the matches `market` and
`stock`), and every other category's score is strictly below it. -/
theorem business_sentence_classification :
    predict_by_keywords
        "The stock market had a significant drop today affecting many companies"
      = ("business", (41 : ℚ) / 250)
    ∧ ((category_scores (plower
        "The stock market had a significant drop today affecting many companies")).all
        (fun p => p.1 == "business" || decide (p.2 < (41 : ℚ) / 250))) = true := by
  have hsc : category_scores (plower
        "The stock market had a significant drop today affecting many companies")
      = [("technology", (2 : ℚ) / 100), ("health", (2 : ℚ) / 100),
         ("education", (2 : ℚ) / 100), ("entertainment", (2 : ℚ) / 100),
         ("science", (2 : ℚ) / 100), ("sports", (2 : ℚ) / 100),
         ("politics", (2 : ℚ) / 100), ("business", (41 : ℚ) / 250),
         ("lifestyle", (2 : ℚ) / 100), ("travel", (2 : ℚ) / 100),
         ("other", (2 : ℚ) / 100)] := by
    rw [category_scores_eq,
      scoreFor_of_zero kw_technology _ (by decide),
      scoreFor_of_zero kw_health _ (by decide),
      scoreFor_of_zero kw_education _ (by decide),
      scoreFor_of_zero kw_entertainment _ (by decide),
      scoreFor_of_zero kw_science _ (by decide),
      scoreFor_of_zero kw_sports _ (by decide),
      scoreFor_of_zero kw_politics _ (by decide),
      scoreFor_of_pos kw_business _ (by decide),
      scoreFor_of_zero kw_lifestyle _ (by decide),
      scoreFor_of_zero kw_travel _ (by decide),
      scoreFor_of_zero kw_other _ (by decide)]
    simp only [show matchCount kw_business (plower
        "The stock market had a significant drop today affecting many companies")
        = 2 from by decide,
      show kw_business.length = 25 from by decide]
    norm_num
  constructor
  · unfold predict_by_keywords
    cases hcs : category_scores (plower
        "The stock market had a significant drop today affecting many companies") with
    | nil =>
      rw [hcs] at hsc
      exact absurd hsc (by simp)
    | cons h t =>
      refine pymax_first_max
        [("technology", (2 : ℚ) / 100), ("health", (2 : ℚ) / 100),
         ("education", (2 : ℚ) / 100), ("entertainment", (2 : ℚ) / 100),
         ("science", (2 : ℚ) / 100), ("sports", (2 : ℚ) / 100),
         ("politics", (2 : ℚ) / 100)]
        [("lifestyle", (2 : ℚ) / 100), ("travel", (2 : ℚ) / 100),
         ("other", (2 : ℚ) / 100)]
        ("business", (41 : ℚ) / 250) h t (hcs.symm.trans hsc) ?_ ?_
      · intro p hp
        simp only [List.mem_cons, List.not_mem_nil, or_false] at hp
        rcases hp with rfl | rfl | rfl | rfl | rfl | rfl | rfl <;> norm_num
      · intro p hp
        simp only [List.mem_cons, List.not_mem_nil, or_false] at hp
        rcases hp with rfl | rfl | rfl <;> norm_num
  · rw [hsc]
    simp only [List.all_cons, List.all_nil, Bool.and_true, Bool.or_eq_true,
      beq_iff_eq, decide_eq_true_eq, Bool.and_eq_true]
    norm_num

/-! ## Concrete environments and states for closed instances -/

def tokStub : Tokenizer := ⟨fun _ => []⟩

/-- A stand-in trained model: a constant score vector with `travel` on top. -/
def trainedStub : TrainedModel :=
  fun _ => [0, 0, 0, 0, 0, 0, 0, 0, 0, (9 : ℚ) / 10, 0]

/-- An environment in which no artifact path exists. -/
def envStub : Env :=
  { pathExists := fun _ => false
    load_model := fun _ _ => .error "file not found"
    pickle_load := fun _ => .error "file not found"
    fresh_model := fun _ => []
    fresh_tokenizer := tokStub }

/-- An environment in which every path exists and both artifacts load. -/
def envAll : Env :=
  { pathExists := fun _ => true
    load_model := fun _ _ => .ok trainedStub
    pickle_load := fun _ => .ok tokStub
    fresh_model := fun _ => []
    fresh_tokenizer := tokStub }

/-- Only the third candidate of each artifact list exists. -/
def envThird : Env :=
  { pathExists := fun s =>
      s == "./thread_category_model.h5" || s == "./tokenizer.pickle"
    load_model := fun _ _ => .ok trainedStub
    pickle_load := fun _ => .ok tokStub
    fresh_model := fun _ => []
    fresh_tokenizer := tokStub }

/-- A state already running on the fresh fallback. -/
def stFresh : ClassifierState :=
  { thread_model := some (fun _ => [])
    tokenizer := some tokStub
    using_fresh_model := true }

/-! ## Helper lemmas about the handler -/

lemma load_models_snd (env : Env) (st : ClassifierState) :
    (load_models env st).2 = true := rfl

lemma maybe_load_snd (env : Env) (st : ClassifierState) :
    (maybe_load env st).2 = true := by
  unfold maybe_load
  split
  · rfl
  · rfl

/-- `using_fresh_model` is only ever raised by `load_models`, never cleared. -/
lemma load_models_fresh_sticky (env : Env) (st : ClassifierState)
    (h : st.using_fresh_model = true) :
    (load_models env st).1.using_fresh_model = true := by
  unfold load_models
  simp [h]

lemma isEmpty_false_of_hasContent (fields : List (String × String))
    (hc : hasContentKey fields = true) : fields.isEmpty = false := by
  cases fields with
  | nil => simp [hasContentKey] at hc
  | cons a l => rfl

/-! ## Claim C2: fresh mode always answers with the keyword classifier -/

/-- C2.  Whenever a request with a `content` field is handled while the
system is in fresh mode (`using_fresh_model` true after the conditional
load), the endpoint's response is exactly `predict_by_keywords` of the
content — for every environment and state, so in particular for every
possible output of the untrained model stored in the state. -/
theorem fresh_mode_routes_to_keywords (env : Env) (st : ClassifierState)
    (fields : List (String × String))
    (hfresh : (maybe_load env st).1.using_fresh_model = true)
    (hcontent : hasContentKey fields = true) :
    (predict_category env st (.parsed (some fields))).2
      = .ok (predict_by_keywords (getContent fields)) := by
  have hne := isEmpty_false_of_hasContent fields hcontent
  simp [predict_category, jsonFalsy, bodyHasContent, hcontent, hne,
    maybe_load_snd env st, hfresh]

theorem fresh_mode_routes_to_keywords_witness :
    (predict_category envStub stFresh
        (.parsed (some [("content", "what a day")]))).2
      = .ok (predict_by_keywords "what a day") :=
  fresh_mode_routes_to_keywords envStub stFresh [("content", "what a day")]
    rfl rfl

/-! ## Claim C7: a missing content field is rejected with a 400 -/

/-- C7.  For every environment and every classifier state — cold, trained or
fresh — a parsed request body without a `content` field is answered with
HTTP 400 `{"error": "Missing content field"}`, and the state is returned
untouched: the request is rejected before any load or inference. -/
theorem missing_content_field_400 (env : Env) (st : ClassifierState)
    (data : Option (List (String × String)))
    (hmiss : bodyHasContent data = false) :
    predict_category env st (.parsed data)
      = (st, .err 400 "Missing content field") := by
  simp [predict_category, hmiss]

theorem missing_content_field_400_witness :
    predict_category envStub initialState (.parsed none)
      = (initialState, .err 400 "Missing content field") :=
  missing_content_field_400 envStub initialState none rfl

/-! ## Claim C10: malformed JSON gives a 500, the 400 only lacks content -/

/-- The trained branch only produces an `ok` result or a 500. -/
lemma trained_predict_not_400 (m : TrainedModel) (tok : Tokenizer)
    (content : String) :
    trained_predict m tok content ≠ .err 400 "Missing content field" := by
  simp only [trained_predict]
  split
  · simp
  · split
    · simp
    · simp

/-- A parsed body that does carry `content` can never produce the 400. -/
lemma with_content_not_400 (env : Env) (st : ClassifierState)
    (fields : List (String × String)) (hc : hasContentKey fields = true) :
    (predict_category env st (.parsed (some fields))).2
      ≠ .err 400 "Missing content field" := by
  have hne := isEmpty_false_of_hasContent fields hc
  simp only [predict_category, jsonFalsy, bodyHasContent, hc, hne,
    maybe_load_snd env st, Bool.not_true, Bool.or_false, Bool.not_false,
    Bool.false_eq_true, if_false, if_true, ite_false, ite_true]
  split
  · simp
  · split
    · exact trained_predict_not_400 _ _ _
    · simp

/-- C10.  The 400 `"Missing content field"` response arises only from a body
that parsed as JSON and lacks a `content` key; a body that is not valid JSON
raises inside the handler's try block and is answered as HTTP 500 carrying
the exception message, never as a 400. -/
theorem malformed_json_500_not_400 (env : Env) (st : ClassifierState)
    (req : ReqBody) :
    (∀ msg, req = .malformed msg →
      predict_category env st req = (st, .err 500 msg))
    ∧ ((predict_category env st req).2 = .err 400 "Missing content field" →
        ∃ data, req = .parsed data ∧ bodyHasContent data = false) := by
  constructor
  · intro msg h
    rw [h]
    rfl
  · intro h
    cases req with
    | malformed msg => simp [predict_category] at h
    | parsed data =>
      refine ⟨data, rfl, ?_⟩
      by_contra hbc
      rw [Bool.not_eq_false] at hbc
      cases data with
      | none => simp [bodyHasContent] at hbc
      | some fields =>
        simp only [bodyHasContent] at hbc
        exact with_content_not_400 env st fields hbc h

theorem malformed_json_500_not_400_witness :
    predict_category envStub initialState
        (.malformed "Failed to decode JSON object")
      = (initialState, .err 500 "Failed to decode JSON object")
    ∧ (∃ data, (ReqBody.parsed none : ReqBody) = .parsed data
        ∧ bodyHasContent data = false) :=
  ⟨(malformed_json_500_not_400 envStub initialState
      (.malformed "Failed to decode JSON object")).1 _ rfl,
   (malformed_json_500_not_400 envStub initialState (.parsed none)).2 rfl⟩

/-! ## Claim C3: the fresh fallback is cached permanently, no self-healing -/

/-- C3, counterexample.  First request under `envStub` (no artifacts):
the state falls back to a fresh model and tokenizer (conjunct 1).  The
artifacts then appear (`envAll` — under which a cold-start load would stay
on the trained path, conjunct 5, and a trained-state request answers from
the model, conjunct 6).  Yet the second request leaves the cached state
untouched — no re-attempted load (conjunct 2) — and still answers from the
keyword classifier (conjunct 3); even an explicit reload would keep
`using_fresh_model` set (conjunct 4).  So the system does not recover to the
trained path without a restart, refuting the claim. -/
theorem fresh_fallback_cached_cex :
    ((predict_category envStub initialState
        (.parsed (some [("content", "hello")]))).1.using_fresh_model = true)
    ∧ (predict_category envAll
          (predict_category envStub initialState
            (.parsed (some [("content", "hello")]))).1
          (.parsed (some [("content", "hello")]))).1
        = (predict_category envStub initialState
            (.parsed (some [("content", "hello")]))).1
    ∧ (predict_category envAll
          (predict_category envStub initialState
            (.parsed (some [("content", "hello")]))).1
          (.parsed (some [("content", "hello")]))).2
        = .ok (predict_by_keywords "hello")
    ∧ (load_models envAll
        (predict_category envStub initialState
          (.parsed (some [("content", "hello")]))).1).1.using_fresh_model
        = true
    ∧ (load_models envAll initialState).1.using_fresh_model = false
    ∧ (predict_category envAll
          { thread_model := some trainedStub, tokenizer := some tokStub,
            using_fresh_model := false }
          (.parsed (some [("content", "hello")]))).2
        = .ok ("travel", (9 : ℚ) / 10) := by
  refine ⟨rfl, rfl, rfl, rfl, rfl, ?_⟩
  show trained_predict trainedStub tokStub "hello" = .ok ("travel", (9 : ℚ) / 10)
  simp only [trained_predict, trainedStub, label_mapping]
  norm_num [List.zip, List.zipWith, pymax, pickMax, List.foldl]

/-- C3, amended.  Once a request has populated the globals — in particular
once a fresh model or fresh tokenizer was substituted — both globals are
non-`None`, so every later request skips `load_models` entirely and leaves
the state unchanged (conjunct 1); moreover `load_models` never clears
`using_fresh_model` (conjunct 2).  Hence the fallback state is cached
permanently and the trained path can only be recovered by a process
restart, contrary to the claimed per-request re-evaluation. -/
theorem fresh_fallback_cached_permanently (env : Env) (st : ClassifierState)
    (req : ReqBody) (hm : st.thread_model.isSome = true)
    (ht : st.tokenizer.isSome = true) :
    (predict_category env st req).1 = st
    ∧ (∀ env2 : Env, ∀ st2 : ClassifierState, st2.using_fresh_model = true →
        (load_models env2 st2).1.using_fresh_model = true) := by
  constructor
  · obtain ⟨m, hm'⟩ := Option.isSome_iff_exists.mp hm
    obtain ⟨tk, ht'⟩ := Option.isSome_iff_exists.mp ht
    cases req with
    | malformed msg => rfl
    | parsed data =>
      simp only [predict_category]
      split
      · rfl
      · simp only [maybe_load, hm', ht', Option.isNone_some, Bool.or_self,
          Bool.false_eq_true, if_false, ite_false]
        split
        · rfl
        · split
          · rfl
          · rfl
  · intro env2 st2 h2
    exact load_models_fresh_sticky env2 st2 h2

theorem fresh_fallback_cached_permanently_witness :
    (predict_category envStub stFresh
        (.parsed (some [("content", "hello")]))).1 = stFresh
    ∧ (∀ env2 : Env, ∀ st2 : ClassifierState, st2.using_fresh_model = true →
        (load_models env2 st2).1.using_fresh_model = true) :=
  fresh_fallback_cached_permanently envStub stFresh
    (.parsed (some [("content", "hello")])) rfl rfl

/-! ## Claim C6: the artifact locator returns the first existing path -/

lemma find_model_of_split (env : Env) (pre : List String) (p : String)
    (post : List String) (m : TrainedModel)
    (hpre : ∀ q ∈ pre, env.pathExists q = false)
    (hex : env.pathExists p = true)
    (hload : try_load_model env p = some m) :
    find_model env (pre ++ p :: post) = some (p, m) := by
  induction pre with
  | nil =>
    rw [List.nil_append]
    simp [find_model, hex, hload]
  | cons a rest ih =>
    have ha : env.pathExists a = false := hpre a (by simp)
    rw [List.cons_append]
    simp only [find_model, ha, Bool.false_eq_true, if_false, ite_false]
    exact ih (fun q hq => hpre q (by simp [hq]))

lemma find_tokenizer_of_split (env : Env) (pre : List String) (p : String)
    (post : List String) (t : Tokenizer)
    (hpre : ∀ q ∈ pre, env.pathExists q = false)
    (hex : env.pathExists p = true)
    (hload : env.pickle_load p = .ok t) :
    find_tokenizer env (pre ++ p :: post) = some (p, t) := by
  induction pre with
  | nil =>
    rw [List.nil_append]
    simp [find_tokenizer, hex, hload]
  | cons a rest ih =>
    have ha : env.pathExists a = false := hpre a (by simp)
    rw [List.cons_append]
    simp only [find_tokenizer, ha, Bool.false_eq_true, if_false, ite_false]
    exact ih (fun q hq => hpre q (by simp [hq]))

lemma find_model_none (env : Env) :
    ∀ l : List String, (∀ q ∈ l, env.pathExists q = false) →
      find_model env l = none := by
  intro l
  induction l with
  | nil => intro _; rfl
  | cons a rest ih =>
    intro h
    have ha : env.pathExists a = false := h a (by simp)
    simp only [find_model, ha, Bool.false_eq_true, if_false, ite_false]
    exact ih (fun q hq => h q (by simp [hq]))

lemma find_tokenizer_none (env : Env) :
    ∀ l : List String, (∀ q ∈ l, env.pathExists q = false) →
      find_tokenizer env l = none := by
  intro l
  induction l with
  | nil => intro _; rfl
  | cons a rest ih =>
    intro h
    have ha : env.pathExists a = false := h a (by simp)
    simp only [find_tokenizer, ha, Bool.false_eq_true, if_false, ite_false]
    exact ih (fun q hq => h q (by simp [hq]))

/-- C6.  The artifact locator probes its candidate list in order and,
independently for the model and the tokenizer, settles on the first path
that exists (conjuncts 1 and 2, for any split of the candidate list whose
earlier candidates are all absent and whose chosen path exists and loads);
when no candidate exists it reports not-found for both — no exception — and
`load_models` still completes, substituting the fresh model and fresh
tokenizer and raising `using_fresh_model` (conjunct 3). -/
theorem artifact_locator_first_existing (env : Env) :
    (∀ (pre : List String) (p : String) (post : List String)
        (m : TrainedModel),
      possible_model_paths = pre ++ p :: post →
      (∀ q ∈ pre, env.pathExists q = false) →
      env.pathExists p = true →
      try_load_model env p = some m →
      find_model env possible_model_paths = some (p, m))
    ∧ (∀ (pre : List String) (p : String) (post : List String)
        (t : Tokenizer),
      possible_tokenizer_paths = pre ++ p :: post →
      (∀ q ∈ pre, env.pathExists q = false) →
      env.pathExists p = true →
      env.pickle_load p = .ok t →
      find_tokenizer env possible_tokenizer_paths = some (p, t))
    ∧ ((∀ q ∈ possible_model_paths, env.pathExists q = false) →
       (∀ q ∈ possible_tokenizer_paths, env.pathExists q = false) →
       ∀ st : ClassifierState,
        find_model env possible_model_paths = none
        ∧ find_tokenizer env possible_tokenizer_paths = none
        ∧ load_models env st
            = ({ thread_model := some env.fresh_model,
                 tokenizer := some env.fresh_tokenizer,
                 using_fresh_model := true }, true)) := by
  refine ⟨?_, ?_, ?_⟩
  · intro pre p post m hsplit hpre hex hload
    rw [hsplit]
    exact find_model_of_split env pre p post m hpre hex hload
  · intro pre p post t hsplit hpre hex hload
    rw [hsplit]
    exact find_tokenizer_of_split env pre p post t hpre hex hload
  · intro hm htk st
    refine ⟨find_model_none env _ hm, find_tokenizer_none env _ htk, ?_⟩
    simp only [load_models, find_model_none env _ hm,
      find_tokenizer_none env _ htk, Option.isNone_none, Bool.or_true,
      create_fresh_model, create_fresh_tokenizer]

theorem artifact_locator_first_existing_witness :
    find_model envThird possible_model_paths
      = some ("./thread_category_model.h5", trainedStub)
    ∧ find_tokenizer envThird possible_tokenizer_paths
      = some ("./tokenizer.pickle", tokStub)
    ∧ (find_model envStub possible_model_paths = none
       ∧ find_tokenizer envStub possible_tokenizer_paths = none
       ∧ load_models envStub initialState
          = ({ thread_model := some envStub.fresh_model,
               tokenizer := some envStub.fresh_tokenizer,
               using_fresh_model := true }, true)) := by
  refine ⟨?_, ?_, ?_⟩
  · exact (artifact_locator_first_existing envThird).1
      ["/app/models/thread_category_model.h5", "/app/thread_category_model.h5"]
      "./thread_category_model.h5" ["./models/thread_category_model.h5"]
      trainedStub rfl (by decide) rfl rfl
  · exact (artifact_locator_first_existing envThird).2.1
      ["/app/models/tokenizer.pickle", "/app/tokenizer.pickle"]
      "./tokenizer.pickle" ["./models/tokenizer.pickle"]
      tokStub rfl (by decide) rfl rfl
  · exact (artifact_locator_first_existing envStub).2.2
      (by decide) (by decide) initialState

end AyCom
